import Mathlib

/-!
Verification development for the jobblixor backend (src/jobblixor.py).

The Python functions relevant to the claims are shallowly embedded here:

* `applyToJob` embeds `apply_to_job(job, user_data)` (lines 159-200): the
  quota gate (which calls `exit()` — a `SystemExit`, not caught by the
  function's `except Exception` clause — modelled as `ApplyResult.exited`),
  the link validity check (Python truthiness plus a `"http" in url`
  substring test), the Playwright session (modelled as an event trace:
  launch, goto, screenshot, form fill, submit click, close, stop),
  the Greenhouse branch (`"greenhouse.io" in page.url`), and the Firestore
  counter update.  Fallible external actions (navigation, screenshot,
  form fill, Firestore update) are driven by an `Oracle` that says whether
  each raises and what `page.url` resolves to.  Inside `apply_to_job` the
  only document ever read or written is `users/{email}`, and nothing writes
  it between the initial `doc_ref.get()` and the final `doc_ref.update`,
  so the database is modelled as that single optional document, and the
  local `counts` snapshot always equals the current document.  When the
  document does not exist, the Python local `counts` is never assigned, so
  the update line raises an unbound-local error that the `except` clause
  turns into a `Failed (...)` string.
* `runJobs` / `submitBatch` embed the auto-apply loop of the `/submit`
  route (lines 316-324), threading the database through the postings and
  collecting the per-posting log.
* `submitSaveExisting` embeds the existing-user branch of the `/submit`
  route's profile save (lines 291-301).

Exiting a `with sync_playwright()` block — normally or via an exception —
stops the Playwright driver, which closes every browser it launched; the
trace therefore records a `playwrightStop` event on every exit of the
block, and a browser session counts as closed when a `browserClose` or a
`playwrightStop` follows its launch.
-/

namespace Jobblixor

/-- Whether `needle` occurs as a contiguous run inside `hay`. -/
def pyInAux (needle : List Char) : List Char → Bool
  | [] => needle.isEmpty
  | c :: rest => needle.isPrefixOf (c :: rest) || pyInAux needle rest

/-- Python's `needle in haystack` substring test on strings. -/
def pyIn (needle hay : String) : Bool :=
  pyInAux needle.data hay.data

/-- A Firestore document under `users/{email}`, restricted to the fields the
embedded routes read or write.  `none` means the field is absent from the
document (Firestore documents are schemaless; the code reads fields with
`dict.get(key, default)`). -/
structure UserDoc where
  free_uses_left : Option Int := none
  application_count : Option Int := none
  plan_id : Option String := none
  subscription_status : Option String := none
  created_at : Option String := none
  job_title : Option String := none
  location : Option String := none
  first_name : Option String := none
  last_name : Option String := none
  phone : Option String := none
  email : Option String := none
  password_hash : Option String := none
  salary : Option String := none
  resume_path : Option String := none
  profile_photo : Option String := none
  num_jobs : Option Int := none
  updated_at : Option String := none
deriving DecidableEq, Repr

/-- A job posting as produced by `fetch_jobs`: title, company and apply link. -/
structure Job where
  title : String
  company : String
  link : String
deriving DecidableEq, Repr

/-- The outcome string returned by `apply_to_job`. -/
inductive Outcome where
  | skippedInvalidLink
  | success
  | failed (msg : String)
deriving DecidableEq, Repr

/-- The literal status string `apply_to_job` returns for each outcome. -/
def Outcome.text : Outcome → String
  | .skippedInvalidLink => "Skipped (invalid link)"
  | .success => "Success (screenshot taken)"
  | .failed m => "Failed (" ++ m ++ ")"

/-- How one call of `apply_to_job` terminates: it returns an outcome string,
or `exit()` raises `SystemExit` (not an `Exception`, so not caught) and the
process unwinds. -/
inductive ApplyResult where
  | ret (o : Outcome)
  | exited
deriving DecidableEq, Repr

/-- Externally visible actions of one `apply_to_job` call, in order. -/
inductive Event where
  | browserLaunch
  | goto (url : String)
  | screenshot (path : String)
  | formFill
  | submitClick
  | browserClose
  | playwrightStop
  | dbUpdate
deriving DecidableEq, Repr

/-- Environment oracle for the fallible external actions of one call:
whether each raises (and with what message), and what URL the page resolves
to after navigation (`page.url`, which the Greenhouse test inspects). -/
structure Oracle where
  gotoErr : Option String := none
  resolvedUrl : String := ""
  screenshotErr : Option String := none
  fillErr : Option String := none
  updateErr : Option String := none
deriving Repr

/-- Result of one `apply_to_job` call: how it terminated, the state of the
user's document afterwards, and the trace of external actions. -/
structure ApplyOut where
  res : ApplyResult
  db : Option UserDoc
  events : List Event
deriving DecidableEq, Repr

/-- `SCREENSHOT_DIR` from the source. -/
def SCREENSHOT_DIR : String := "debug/screenshots"

/-- Python's `s.replace(" ", "_")`: with a one-character pattern this is a
character-wise map. -/
def underscoreSpaces (s : String) : String :=
  ⟨s.data.map fun c => if c = ' ' then '_' else c⟩

/-- The screenshot path built at line 180: spaces in title and company are
replaced by underscores (no other characters are touched). -/
def screenshotPath (title company : String) : String :=
  SCREENSHOT_DIR ++ "/" ++ underscoreSpaces title ++ "_" ++ underscoreSpaces company ++ ".png"

/-- The message of the unbound-local error raised at line 194 when the user
document did not exist, so the local `counts` was never assigned. -/
def countsUnboundMsg : String := "local variable 'counts' referenced before assignment"

/-- The counter update of lines 193-196, applied to the snapshot `c` (which
equals the current document): `application_count` becomes the snapshot count
plus one and `free_uses_left` becomes the snapshot value minus one, floored
at zero; both fields are written even if previously absent. -/
def commitDoc (c : UserDoc) : UserDoc :=
  { c with
    application_count := some (c.application_count.getD 0 + 1)
    free_uses_left := some (max 0 (c.free_uses_left.getD 0 - 1)) }

/-- Lines 191-198: `browser.close()`, then the Firestore update (which
raises the unbound-local error when the document was absent, or the
oracle's update error), then `return "Success (screenshot taken)"`.  All
paths leave the `with sync_playwright()` block, appending `playwrightStop`. -/
def finishApply (counts : Option UserDoc) (o : Oracle) (ev : List Event) : ApplyOut :=
  match counts with
  | none =>
      ⟨.ret (.failed countsUnboundMsg), none,
        ev ++ [Event.browserClose, Event.playwrightStop]⟩
  | some c =>
      match o.updateErr with
      | some e =>
          ⟨.ret (.failed e), some c,
            ev ++ [Event.browserClose, Event.playwrightStop]⟩
      | none =>
          ⟨.ret .success, some (commitDoc c),
            ev ++ [Event.browserClose, Event.dbUpdate, Event.playwrightStop]⟩

/-- Lines 174-198, the `with sync_playwright()` block: launch, navigate
(line 177, may raise), screenshot (lines 180-181, taken before any form
interaction, may raise), the Greenhouse branch (lines 183-189: fills and the
submit click happen only when `"greenhouse.io"` occurs in the resolved page
URL, and any of them may raise), then `finishApply`.  An exception anywhere
exits the block (stopping Playwright) and is caught at line 199 as
`Failed (...)`. -/
def runBrowser (job : Job) (counts : Option UserDoc) (o : Oracle) : ApplyOut :=
  match o.gotoErr with
  | some e =>
      ⟨.ret (.failed e), counts,
        [Event.browserLaunch, Event.goto job.link, Event.playwrightStop]⟩
  | none =>
      match o.screenshotErr with
      | some e =>
          ⟨.ret (.failed e), counts,
            [Event.browserLaunch, Event.goto job.link,
             Event.screenshot (screenshotPath job.title job.company),
             Event.playwrightStop]⟩
      | none =>
          if pyIn "greenhouse.io" o.resolvedUrl then
            match o.fillErr with
            | some e =>
                ⟨.ret (.failed e), counts,
                  [Event.browserLaunch, Event.goto job.link,
                   Event.screenshot (screenshotPath job.title job.company),
                   Event.formFill, Event.playwrightStop]⟩
            | none =>
                finishApply counts o
                  [Event.browserLaunch, Event.goto job.link,
                   Event.screenshot (screenshotPath job.title job.company),
                   Event.formFill, Event.submitClick]
          else
            finishApply counts o
              [Event.browserLaunch, Event.goto job.link,
               Event.screenshot (screenshotPath job.title job.company)]

/-- Lines 170-172: `url = job["link"]; if not url or "http" not in url`.
An empty string is falsy in Python, and the second test is a substring
test, not a scheme check. -/
def invalidLink (url : String) : Bool :=
  url == "" || !(pyIn "http" url)

/-- Lines 170-198 after the quota gate: the link check, then the browser
block. -/
def applyLink (job : Job) (counts : Option UserDoc) (o : Oracle) : ApplyOut :=
  if invalidLink job.link then ⟨.ret .skippedInvalidLink, counts, []⟩
  else runBrowser job counts o

/-- `apply_to_job(job, user_data)` (lines 159-200).  `db` is the state of
the `users/{email}` document.  When the document exists and its
`free_uses_left` (default 0) is `<= 0`, line 168 calls `exit()`:
`SystemExit` is not an `Exception`, so the `except` clause at line 199 does
not catch it and the call never produces an outcome.  When the document
does not exist the gate is skipped entirely. -/
def applyToJob (job : Job) (db : Option UserDoc) (o : Oracle) : ApplyOut :=
  match db with
  | some counts =>
      if counts.free_uses_left.getD 0 ≤ 0 then ⟨.exited, some counts, []⟩
      else applyLink job (some counts) o
  | none => applyLink job none o

/-- The auto-apply loop of the `/submit` route (lines 319-322): postings are
processed sequentially in order, each via `apply_to_job` with the database
state left by the previous one; the per-posting oracle is `os i` for the
i-th posting.  The first component is `none` when a `SystemExit` escaped
`apply_to_job` and aborted the loop, otherwise the ordered list of
(posting, outcome) pairs from which the response log is formatted. -/
def runJobs (jobs : List Job) (db : Option UserDoc) (os : Nat → Oracle) (i : Nat) :
    Option (List (Job × Outcome)) × Option UserDoc × List Event :=
  match jobs with
  | [] => (some [], db, [])
  | j :: rest =>
      match applyToJob j db (os i) with
      | ⟨.exited, db1, evs1⟩ => (none, db1, evs1)
      | ⟨.ret o, db1, evs1⟩ =>
          match runJobs rest db1 os (i + 1) with
          | (none, db2, evs) => (none, db2, evs1 ++ evs)
          | (some ps, db2, evs) => (some ((j, o) :: ps), db2, evs1 ++ evs)

/-- The log line appended at line 322: an f-string with an en dash. -/
def logEntry (j : Job) (o : Outcome) : String :=
  j.title ++ " at " ++ j.company ++ " – " ++ o.text

/-- What the `/submit` route's auto-apply section produces: the JSON
response of line 324, or no response at all because the process exited. -/
inductive BatchResult where
  | response (status : String) (log : List String)
  | exited
deriving DecidableEq, Repr

/-- Lines 316-324: run the loop over the discovered postings and, if it
completes, answer `{"status": "success", "log": logs}`. -/
def submitBatch (jobs : List Job) (db : Option UserDoc) (os : Nat → Oracle) :
    BatchResult × Option UserDoc × List Event :=
  match runJobs jobs db os 0 with
  | (none, db2, evs) => (.exited, db2, evs)
  | (some ps, db2, evs) =>
      (.response "success" (ps.map fun p => logEntry p.1 p.2), db2, evs)

/-- The `application_count` a document snapshot reads with default 0. -/
def appCountD (db : Option UserDoc) : Int :=
  (db.bind UserDoc.application_count).getD 0

/-- The `free_uses_left` a document snapshot reads with default 0. -/
def freeLeftD (db : Option UserDoc) : Int :=
  (db.bind UserDoc.free_uses_left).getD 0

/-- Number of Success outcomes among the batch's (posting, outcome) pairs
— the Success entries of the response log. -/
def numSuccess (ps : List (Job × Outcome)) : Int :=
  ((ps.countP fun p => p.2 == Outcome.success : Nat) : Int)

/-- Browser-session accounting over an event trace: `some opened` carries
whether a session is currently open, `none` marks a violation (a second
launch while one is open).  `browserClose` closes the session explicitly;
`playwrightStop` closes every session the stopped driver launched. -/
def stepSess (s : Option Bool) (e : Event) : Option Bool :=
  match s, e with
  | none, _ => none
  | some opened, Event.browserLaunch => if opened then none else some true
  | some _, Event.browserClose => some false
  | some _, Event.playwrightStop => some false
  | some opened, _ => some opened

/-- Session state after a trace. -/
def sessState (evs : List Event) (s : Option Bool) : Option Bool :=
  evs.foldl stepSess s

/-- The form-derived values the `/submit` route assembles into `user_data`
(lines 276-289), after defaulting: `resume_path`, `profile_photo` and
`num_jobs` already carry their fallback values, `now` is the timestamp. -/
structure SubmitForm where
  job_title : String
  location : String
  first_name : String
  last_name : String
  phone : String
  email : String
  password_hash : String
  salary : String
  resume_path : String
  profile_photo : String
  num_jobs : Int
  now : String
deriving DecidableEq, Repr

/-- The existing-user branch of the `/submit` route's profile save
(lines 291-301): the update dict holds the form-derived fields plus the five
counter/plan fields copied from the stored document via get-with-default,
and `doc_ref.update` merges that dict into the document (fields not in the
dict are untouched). -/
def submitSaveExisting (old : UserDoc) (f : SubmitForm) : UserDoc :=
  { old with
    job_title := some f.job_title
    location := some f.location
    first_name := some f.first_name
    last_name := some f.last_name
    phone := some f.phone
    email := some f.email
    password_hash := some f.password_hash
    salary := some f.salary
    resume_path := some f.resume_path
    profile_photo := some f.profile_photo
    num_jobs := some f.num_jobs
    updated_at := some f.now
    free_uses_left := some (old.free_uses_left.getD 5)
    application_count := some (old.application_count.getD 0)
    plan_id := some (old.plan_id.getD "free")
    subscription_status := some (old.subscription_status.getD "active")
    created_at := some (old.created_at.getD f.now) }

/-! ### Concrete sample inputs, used in counterexamples and witnesses -/

/-- A stored user document with an exhausted quota. -/
def doc0 : UserDoc := { free_uses_left := some 0, application_count := some 2 }

/-- A stored user document with exactly one free use left. -/
def doc1 : UserDoc := { free_uses_left := some 1, application_count := some 7 }

/-- A stored user document with two free uses left. -/
def doc2 : UserDoc := { free_uses_left := some 2, application_count := some 0 }

/-- A stored user document with three free uses left. -/
def doc3 : UserDoc := { free_uses_left := some 3, application_count := some 0 }

/-- A posting on a site that is not Greenhouse. -/
def jobGen : Job := ⟨"Data Analyst", "Acme Corp", "https://jobs.example.com/123"⟩

/-- A posting whose page is a Greenhouse board. -/
def jobGh : Job := ⟨"Backend Engineer", "Initech", "https://boards.greenhouse.io/initech/42"⟩

/-- A posting with an empty apply link. -/
def jobEmpty : Job := ⟨"Cashier", "MegaMart", ""⟩

/-- A posting whose link has no http scheme but does contain "http" as a
substring, so it passes the source's link check. -/
def jobFtp : Job := ⟨"Clerk", "ShopCo", "ftp://files.shopco.example/http-guide"⟩

/-- An environment where everything succeeds and the page resolves to a
non-Greenhouse URL. -/
def oClean : Oracle := { resolvedUrl := "https://jobs.example.com/123" }

/-- An environment where everything succeeds and the page resolves to a
Greenhouse URL. -/
def oGh : Oracle := { resolvedUrl := "https://boards.greenhouse.io/initech/42" }

/-- A Greenhouse page where taking the screenshot raises. -/
def oShotFail : Oracle :=
  { resolvedUrl := "https://boards.greenhouse.io/initech/42",
    screenshotErr := some "screenshot timeout" }

/-- A Greenhouse page where the Firestore counter update raises. -/
def oUpdateFail : Oracle :=
  { resolvedUrl := "https://boards.greenhouse.io/initech/42",
    updateErr := some "503 Service Unavailable" }

/-- An environment where navigation raises. -/
def oNavFail : Oracle := { gotoErr := some "net::ERR_NAME_NOT_RESOLVED" }

/-- A stored user document with every counter/plan field present. -/
def oldDoc : UserDoc :=
  { free_uses_left := some 4, application_count := some 1, plan_id := some "free",
    subscription_status := some "active", created_at := some "2025-01-01T00:00:00",
    job_title := some "Cook", location := some "Austin, TX" }

/-- A fresh set of form values for the /submit profile save. -/
def formNew : SubmitForm :=
  { job_title := "Chef", location := "Dallas, TX", first_name := "Sam", last_name := "Lee",
    phone := "555-0100", email := "sam@example.com", password_hash := "hhh",
    salary := "50000", resume_path := "uploads/resume.pdf",
    profile_photo := "uploads/photo.jpg", num_jobs := 5, now := "2025-02-02T00:00:00" }

/-! ### Helper lemmas -/

theorem runBrowser_step (j : Job) (c : Option UserDoc) (o : Oracle) :
    ((runBrowser j c o).res = ApplyResult.ret Outcome.success ∧
        ∃ d, c = some d ∧ (runBrowser j c o).db = some (commitDoc d)) ∨
      ((runBrowser j c o).res ≠ ApplyResult.ret Outcome.success ∧ (runBrowser j c o).db = c) := by
  obtain ⟨g, ru, se, fe, ue⟩ := o
  rcases c with _ | d <;> cases g <;> cases se <;> cases fe <;> cases ue <;>
    simp [runBrowser, finishApply] <;> split <;> simp

theorem applyToJob_step (j : Job) (db : Option UserDoc) (o : Oracle) :
    (∃ d, db = some d ∧ 0 < d.free_uses_left.getD 0 ∧
        (applyToJob j db o).res = ApplyResult.ret Outcome.success ∧
        (applyToJob j db o).db = some (commitDoc d)) ∨
      ((applyToJob j db o).res ≠ ApplyResult.ret Outcome.success ∧
        (applyToJob j db o).db = db) := by
  rcases db with _ | d
  · simp only [applyToJob, applyLink]
    split
    · right; simp
    · rcases runBrowser_step j none o with ⟨_, d', hd', _⟩ | ⟨h1, h2⟩
      · exact absurd hd' (by simp)
      · exact Or.inr ⟨h1, h2⟩
  · simp only [applyToJob]
    split
    · right; simp
    · rename_i hq
      simp only [applyLink]
      split
      · right; simp
      · rcases runBrowser_step j (some d) o with ⟨hs, d', hd', hdb⟩ | ⟨h1, h2⟩
        · left
          refine ⟨d, rfl, by omega, hs, ?_⟩
          rw [hdb, Option.some.inj hd']
        · exact Or.inr ⟨h1, h2⟩

theorem sessState_append (a b : List Event) (s : Option Bool) :
    sessState (a ++ b) s = sessState b (sessState a s) := by
  simp [sessState, List.foldl_append]

theorem sess_applyToJob (j : Job) (db : Option UserDoc) (o : Oracle) :
    sessState (applyToJob j db o).events (some false) = some false := by
  obtain ⟨g, ru, se, fe, ue⟩ := o
  rcases db with _ | d <;> cases g <;> cases se <;> cases fe <;> cases ue <;>
    simp only [applyToJob, applyLink, runBrowser, finishApply] <;>
    (try split) <;> (try split) <;> (try split) <;>
    simp [sessState, stepSess]

theorem sess_runJobs (jobs : List Job) : ∀ (db : Option UserDoc) (os : Nat → Oracle) (i : Nat),
    sessState (runJobs jobs db os i).2.2 (some false) = some false := by
  induction jobs with
  | nil => intro db os i; simp [runJobs, sessState]
  | cons j rest ih =>
      intro db os i
      have hj := sess_applyToJob j db (os i)
      rcases happ : applyToJob j db (os i) with ⟨res, db1, evs1⟩
      rw [happ] at hj
      rw [runJobs, happ]
      cases res with
      | exited => simpa using hj
      | ret o =>
          have hr := ih db1 os (i + 1)
          rcases hrec : runJobs rest db1 os (i + 1) with ⟨orec, dbr, evr⟩
          rw [hrec] at hr
          dsimp only
          rw [hrec]
          cases orec <;> simpa [sessState_append, hj] using hr

theorem commitDoc_counts (d : UserDoc) (h : 0 < d.free_uses_left.getD 0) :
    appCountD (some (commitDoc d)) = appCountD (some d) + 1 ∧
      freeLeftD (some (commitDoc d)) = freeLeftD (some d) - 1 ∧
      0 ≤ freeLeftD (some (commitDoc d)) := by
  simp only [appCountD, freeLeftD, commitDoc, Option.some_bind, Option.getD_some]
  have hs : (0 : Int) ⊔ (d.free_uses_left.getD 0 - 1) = d.free_uses_left.getD 0 - 1 := by
    rw [sup_eq_max]; exact max_eq_right (by omega)
  exact ⟨trivial, hs, by rw [hs]; omega⟩

theorem numSuccess_cons (j : Job) (o : Outcome) (ps : List (Job × Outcome)) :
    numSuccess ((j, o) :: ps) = (if o = Outcome.success then 1 else 0) + numSuccess ps := by
  simp only [numSuccess, List.countP_cons]
  by_cases h : o = Outcome.success <;> simp [h] <;> omega

theorem runJobs_counters (jobs : List Job) :
    ∀ (db : Option UserDoc) (os : Nat → Oracle) (i : Nat)
      (ps : List (Job × Outcome)) (db2 : Option UserDoc) (evs : List Event),
    runJobs jobs db os i = (some ps, db2, evs) →
    appCountD db2 = appCountD db + numSuccess ps ∧
      freeLeftD db2 = freeLeftD db - numSuccess ps ∧
      (0 ≤ freeLeftD db → 0 ≤ freeLeftD db2) := by
  induction jobs with
  | nil =>
      intro db os i ps db2 evs h
      simp only [runJobs, Prod.mk.injEq] at h
      obtain ⟨h1, h2, h3⟩ := h
      subst h2
      obtain rfl : ps = [] := (Option.some.inj h1).symm
      simp [numSuccess]
  | cons j rest ih =>
      intro db os i ps db2 evs h
      have hstep := applyToJob_step j db (os i)
      rcases happ : applyToJob j db (os i) with ⟨res, db1, evs1⟩
      rw [happ] at hstep
      rw [runJobs, happ] at h
      cases res with
      | exited => simp at h
      | ret o =>
          dsimp only at h hstep
          rcases hrec : runJobs rest db1 os (i + 1) with ⟨orec, dbr, evr⟩
          rw [hrec] at h
          cases orec with
          | none => simp at h
          | some ps1 =>
              simp only [Prod.mk.injEq] at h
              obtain ⟨hps, hdb2, hevs⟩ := h
              subst hdb2
              obtain rfl : ps = (j, o) :: ps1 := (Option.some.inj hps).symm
              obtain ⟨e1, e2, e3⟩ := ih db1 os (i + 1) ps1 dbr evr hrec
              rcases hstep with ⟨d, hdb, hq, hres, hdb1⟩ | ⟨hres, hdb1⟩
              · simp only [ApplyResult.ret.injEq] at hres
                subst hdb hdb1
                obtain ⟨cA, cF, cN⟩ := commitDoc_counts d hq
                rw [numSuccess_cons, if_pos hres]
                refine ⟨by omega, by omega, fun _ => e3 cN⟩
              · have hno : ¬ o = Outcome.success := by
                  intro hh; exact hres (by rw [hh])
                subst hdb1
                rw [numSuccess_cons, if_neg hno]
                exact ⟨by omega, by omega, e3⟩

theorem runJobs_fst (jobs : List Job) :
    ∀ (db : Option UserDoc) (os : Nat → Oracle) (i : Nat)
      (ps : List (Job × Outcome)) (db2 : Option UserDoc) (evs : List Event),
    runJobs jobs db os i = (some ps, db2, evs) → ps.map Prod.fst = jobs := by
  induction jobs with
  | nil =>
      intro db os i ps db2 evs h
      simp only [runJobs, Prod.mk.injEq] at h
      obtain ⟨h1, _, _⟩ := h
      obtain rfl : ps = [] := (Option.some.inj h1).symm
      rfl
  | cons j rest ih =>
      intro db os i ps db2 evs h
      rcases happ : applyToJob j db (os i) with ⟨res, db1, evs1⟩
      rw [runJobs, happ] at h
      cases res with
      | exited => simp at h
      | ret o =>
          dsimp only at h
          rcases hrec : runJobs rest db1 os (i + 1) with ⟨orec, dbr, evr⟩
          rw [hrec] at h
          cases orec with
          | none => simp at h
          | some ps1 =>
              simp only [Prod.mk.injEq] at h
              obtain ⟨hps, _, _⟩ := h
              obtain rfl : ps = (j, o) :: ps1 := (Option.some.inj hps).symm
              simpa using ih db1 os (i + 1) ps1 dbr evr hrec

/-! ### Claim theorems -/

/-- Claim C1, counterexample: on a posting whose resolved page does not
contain the Greenhouse signature (user has quota, everything external
succeeds), `apply_to_job` does NOT yield a Skipped outcome: it falls
through the adapter branch, returns Success, and commits the quota
counters (application_count 0 → 1, free_uses_left 3 → 2). -/
theorem C1_counterexample :
    applyToJob jobGen (some doc3) oClean =
      ⟨ApplyResult.ret Outcome.success,
        some { doc3 with application_count := some 1, free_uses_left := some 2 },
        [Event.browserLaunch, Event.goto jobGen.link,
         Event.screenshot (screenshotPath jobGen.title jobGen.company),
         Event.browserClose, Event.dbUpdate, Event.playwrightStop]⟩ := by
  decide

/-- Claim C1 as amended: for every posting whose resolved page does not
contain the Greenhouse signature, when the quota gate passes, the link is
valid and navigation, screenshot and counter update succeed, `apply_to_job`
skips the form-fill step but still returns Success and commits the user's
quota counters — it never yields a Skipped outcome for an unsupported
site. -/
theorem C1_unmatched_site_commits (job : Job) (d : UserDoc) (o : Oracle)
    (hq : 0 < d.free_uses_left.getD 0)
    (hlink : invalidLink job.link = false)
    (hg : o.gotoErr = none) (hs : o.screenshotErr = none)
    (hm : pyIn "greenhouse.io" o.resolvedUrl = false)
    (hu : o.updateErr = none) :
    applyToJob job (some d) o =
      ⟨ApplyResult.ret Outcome.success, some (commitDoc d),
        [Event.browserLaunch, Event.goto job.link,
         Event.screenshot (screenshotPath job.title job.company),
         Event.browserClose, Event.dbUpdate, Event.playwrightStop]⟩ := by
  obtain ⟨g, ru, se, fe, ue⟩ := o
  dsimp only at hg hs hm hu
  subst hg hs hu
  simp [applyToJob, applyLink, runBrowser, finishApply, hlink, hm, not_le.mpr hq]

/-- Witness for the amended C1 at a concrete input. -/
theorem C1_unmatched_site_commits_witness :
    applyToJob jobGen (some doc3) oClean =
      ⟨ApplyResult.ret Outcome.success, some (commitDoc doc3),
        [Event.browserLaunch, Event.goto jobGen.link,
         Event.screenshot (screenshotPath jobGen.title jobGen.company),
         Event.browserClose, Event.dbUpdate, Event.playwrightStop]⟩ :=
  C1_unmatched_site_commits jobGen doc3 oClean (by decide) (by decide) rfl rfl (by decide) rfl

/-- Claim C2, counterexample: for a user whose stored free_uses_left is 0,
`apply_to_job` does not yield a Skipped(QuotaExhausted) outcome: line 168
calls exit(), a SystemExit that escapes the except clause, so the call
produces no outcome at all (and a two-posting batch aborts with an empty
log instead of continuing to the second posting).  The one part of the
claim the code does satisfy is that no browser event is emitted. -/
theorem C2_counterexample :
    applyToJob jobGen (some doc0) oClean = ⟨ApplyResult.exited, some doc0, []⟩ ∧
      submitBatch [jobGen, jobGh] (some doc0) (fun _ => oClean) =
        (BatchResult.exited, some doc0, []) := by
  constructor <;> rfl

/-- Claim C2 as amended: for every user document with free_uses_left ≤ 0,
the first posting's quota check raises SystemExit before any browser event:
`apply_to_job` never returns, and the whole batch aborts with no response
log instead of continuing with Skipped outcomes for the remaining
postings. -/
theorem C2_quota_exit (d : UserDoc) (job : Job) (jobs : List Job) (os : Nat → Oracle)
    (hq : d.free_uses_left.getD 0 ≤ 0) :
    applyToJob job (some d) (os 0) = ⟨ApplyResult.exited, some d, []⟩ ∧
      submitBatch (job :: jobs) (some d) os = (BatchResult.exited, some d, []) := by
  have h1 : applyToJob job (some d) (os 0) = ⟨ApplyResult.exited, some d, []⟩ := by
    simp [applyToJob, hq]
  refine ⟨h1, ?_⟩
  rw [submitBatch, runJobs, h1]

/-- Witness for the amended C2 at a concrete input (note the posting has an
empty link: the process exits before the link check even runs). -/
theorem C2_quota_exit_witness :
    applyToJob jobEmpty (some doc0) oGh = ⟨ApplyResult.exited, some doc0, []⟩ ∧
      submitBatch [jobEmpty] (some doc0) (fun _ => oGh) = (BatchResult.exited, some doc0, []) :=
  C2_quota_exit doc0 jobEmpty [] (fun _ => oGh) (by decide)

/-- Claim C3, confirmed: across any batch that completes (no quota exit),
free_uses_left never becomes negative, and after the batch the increase in
application_count equals the number of Success outcomes among the
(posting, outcome) pairs that make up the response log, with free_uses_left
decreasing by that same number (the floor at 0 never cuts in because every
Success happens with at least one use left). -/
theorem C3_batch_counters (jobs : List Job) (db : Option UserDoc) (os : Nat → Oracle)
    (ps : List (Job × Outcome)) (db2 : Option UserDoc) (evs : List Event)
    (h : runJobs jobs db os 0 = (some ps, db2, evs)) :
    appCountD db2 = appCountD db + numSuccess ps ∧
      freeLeftD db2 = freeLeftD db - numSuccess ps ∧
      (0 ≤ freeLeftD db → 0 ≤ freeLeftD db2) :=
  runJobs_counters jobs db os 0 ps db2 evs h

/-- Witness for C3 at a concrete input: a one-posting Greenhouse batch for
a user with two uses left ends with one more application and one fewer
use. -/
theorem C3_batch_counters_witness :
    appCountD (some (commitDoc doc2)) =
        appCountD (some doc2) + numSuccess [(jobGh, Outcome.success)] ∧
      freeLeftD (some (commitDoc doc2)) =
        freeLeftD (some doc2) - numSuccess [(jobGh, Outcome.success)] ∧
      (0 ≤ freeLeftD (some doc2) → 0 ≤ freeLeftD (some (commitDoc doc2))) :=
  C3_batch_counters [jobGh] (some doc2) (fun _ => oGh) [(jobGh, Outcome.success)]
    (some (commitDoc doc2))
    [Event.browserLaunch, Event.goto jobGh.link,
     Event.screenshot (screenshotPath jobGh.title jobGh.company),
     Event.formFill, Event.submitClick, Event.browserClose,
     Event.dbUpdate, Event.playwrightStop]
    (by decide)

/-- Claim C4, counterexample.  First conjunct: a posting with an empty
applyUrl processed for a user with zero quota does not yield
Skipped (invalid link) — the quota gate runs first and exits the process.
Second conjunct: a posting whose URL lacks an http scheme but contains
"http" as a substring passes the source's substring check, so instead of
Skipped (invalid link) the engine navigates to it (and here fails). -/
theorem C4_counterexample :
    applyToJob jobEmpty (some doc0) oClean = ⟨ApplyResult.exited, some doc0, []⟩ ∧
      applyToJob jobFtp (some doc3) oNavFail =
        ⟨ApplyResult.ret (Outcome.failed "net::ERR_NAME_NOT_RESOLVED"), some doc3,
          [Event.browserLaunch, Event.goto jobFtp.link, Event.playwrightStop]⟩ := by
  constructor <;> rfl

/-- Claim C4 as amended: a posting whose applyUrl is empty or does not
contain "http" as a substring yields Skipped (invalid link) with no browser
event and no database change, provided the quota gate passes (the user
document is absent, or its free_uses_left is positive); with an existing
document and free_uses_left ≤ 0 the process exits before the link check. -/
theorem C4_invalid_link_skip (job : Job) (db : Option UserDoc) (o : Oracle)
    (hq : db = none ∨ ∃ d, db = some d ∧ 0 < d.free_uses_left.getD 0)
    (hl : invalidLink job.link = true) :
    applyToJob job db o = ⟨ApplyResult.ret Outcome.skippedInvalidLink, db, []⟩ := by
  rcases hq with rfl | ⟨d, rfl, hd⟩
  · simp [applyToJob, applyLink, hl]
  · simp [applyToJob, applyLink, hl, not_le.mpr hd]

/-- Witness for the amended C4 at a concrete input (document absent, empty
link). -/
theorem C4_invalid_link_skip_witness :
    applyToJob jobEmpty none oClean =
      ⟨ApplyResult.ret Outcome.skippedInvalidLink, none, []⟩ :=
  C4_invalid_link_skip jobEmpty none oClean (Or.inl rfl) (by decide)

/-- Claim C5, counterexample: the batch runner does not return a success
response for every profile and posting list — for a user with zero quota
and one posting, `apply_to_job` exits the process and no response is
produced at all. -/
theorem C5_counterexample :
    submitBatch [jobGen] (some doc0) (fun _ => oClean) =
      (BatchResult.exited, some doc0, []) := by
  rfl

/-- Claim C5 as amended: whenever the per-posting loop completes (no
posting hits the quota exit), the batch runner processes the postings
sequentially in order — the (posting, outcome) pairs project back to the
input posting list — and returns status "success" with the ordered log
whose i-th entry is `logEntry` of the i-th posting and its outcome, even
when zero postings succeed. -/
theorem C5_batch_log (jobs : List Job) (db : Option UserDoc) (os : Nat → Oracle)
    (ps : List (Job × Outcome)) (db2 : Option UserDoc) (evs : List Event)
    (h : runJobs jobs db os 0 = (some ps, db2, evs)) :
    ps.map Prod.fst = jobs ∧
      submitBatch jobs db os =
        (BatchResult.response "success" (ps.map fun p => logEntry p.1 p.2), db2, evs) := by
  refine ⟨runJobs_fst jobs db os 0 ps db2 evs h, ?_⟩
  rw [submitBatch, h]

/-- Witness for the amended C5 at a concrete input: a two-posting batch for
a missing user document, where both postings fail or are skipped and the
response is still a success with an ordered two-entry log. -/
theorem C5_batch_log_witness :
    ([(jobEmpty, Outcome.skippedInvalidLink),
        (jobGen, Outcome.failed countsUnboundMsg)].map Prod.fst = [jobEmpty, jobGen]) ∧
      submitBatch [jobEmpty, jobGen] none (fun _ => oClean) =
        (BatchResult.response "success"
            ([(jobEmpty, Outcome.skippedInvalidLink),
              (jobGen, Outcome.failed countsUnboundMsg)].map fun p => logEntry p.1 p.2),
          none,
          [Event.browserLaunch, Event.goto jobGen.link,
           Event.screenshot (screenshotPath jobGen.title jobGen.company),
           Event.browserClose, Event.playwrightStop]) :=
  C5_batch_log [jobEmpty, jobGen] none (fun _ => oClean)
    [(jobEmpty, Outcome.skippedInvalidLink), (jobGen, Outcome.failed countsUnboundMsg)]
    none
    [Event.browserLaunch, Event.goto jobGen.link,
     Event.screenshot (screenshotPath jobGen.title jobGen.company),
     Event.browserClose, Event.playwrightStop]
    (by decide)

/-- Claim C6, counterexample: on a Greenhouse posting where the form submit
has already been clicked, a failing Firestore counter update is NOT retried
and the application is NOT reported as submitted: `apply_to_job` makes a
single update attempt (no dbUpdate event in the trace) and returns
`Failed (503 Service Unavailable)`. -/
theorem C6_counterexample :
    applyToJob jobGh (some doc1) oUpdateFail =
      ⟨ApplyResult.ret (Outcome.failed "503 Service Unavailable"), some doc1,
        [Event.browserLaunch, Event.goto jobGh.link,
         Event.screenshot (screenshotPath jobGh.title jobGh.company),
         Event.formFill, Event.submitClick, Event.browserClose,
         Event.playwrightStop]⟩ := by
  rfl

/-- Claim C6 as amended: if persisting the quota commit fails after a
successful form submission, `apply_to_job` performs no retry and reports
the posting as Failed with the persistence error — even though the trace
shows the submit click already happened — leaving the stored counters
unchanged. -/
theorem C6_commit_failure_reports_failed (job : Job) (d : UserDoc) (o : Oracle) (e : String)
    (hq : 0 < d.free_uses_left.getD 0)
    (hlink : invalidLink job.link = false)
    (hg : o.gotoErr = none) (hs : o.screenshotErr = none)
    (hm : pyIn "greenhouse.io" o.resolvedUrl = true) (hf : o.fillErr = none)
    (hu : o.updateErr = some e) :
    applyToJob job (some d) o =
      ⟨ApplyResult.ret (Outcome.failed e), some d,
        [Event.browserLaunch, Event.goto job.link,
         Event.screenshot (screenshotPath job.title job.company),
         Event.formFill, Event.submitClick, Event.browserClose,
         Event.playwrightStop]⟩ := by
  obtain ⟨g, ru, se, fe, ue⟩ := o
  dsimp only at hg hs hm hf hu
  subst hg hs hf hu
  simp [applyToJob, applyLink, runBrowser, finishApply, hlink, hm, not_le.mpr hq]

/-- Witness for the amended C6 at a concrete input. -/
theorem C6_commit_failure_reports_failed_witness :
    applyToJob jobGh (some doc1) oUpdateFail =
      ⟨ApplyResult.ret (Outcome.failed "503 Service Unavailable"), some doc1,
        [Event.browserLaunch, Event.goto jobGh.link,
         Event.screenshot (screenshotPath jobGh.title jobGh.company),
         Event.formFill, Event.submitClick, Event.browserClose,
         Event.playwrightStop]⟩ :=
  C6_commit_failure_reports_failed jobGh doc1 oUpdateFail "503 Service Unavailable"
    (by decide) (by decide) rfl rfl (by decide) rfl rfl

/-- Claim C7, counterexample: a screenshot-capture failure is not
non-fatal — with capture failing the posting's outcome is
`Failed (screenshot timeout)`, while the identical run with capture
succeeding returns Success: the capture failure changed the outcome. -/
theorem C7_counterexample :
    applyToJob jobGh (some doc3) oShotFail =
      ⟨ApplyResult.ret (Outcome.failed "screenshot timeout"), some doc3,
        [Event.browserLaunch, Event.goto jobGh.link,
         Event.screenshot (screenshotPath jobGh.title jobGh.company),
         Event.playwrightStop]⟩ ∧
      (applyToJob jobGh (some doc3) oGh).res = ApplyResult.ret Outcome.success := by
  constructor <;> rfl

/-- Claim C7 as amended: the screenshot is captured right after navigation
and BEFORE the fill/submit step, under the deterministic path built from
(title, company) with spaces (only) replaced by underscores; a capture
failure is fatal to the posting: the outcome becomes Failed with the
capture error (no form fill, no counter update). -/
theorem C7_screenshot_first_and_fatal (job : Job) (d : UserDoc) (o : Oracle)
    (hq : 0 < d.free_uses_left.getD 0)
    (hlink : invalidLink job.link = false)
    (hg : o.gotoErr = none) :
    (∀ e, o.screenshotErr = some e →
        applyToJob job (some d) o =
          ⟨ApplyResult.ret (Outcome.failed e), some d,
            [Event.browserLaunch, Event.goto job.link,
             Event.screenshot (screenshotPath job.title job.company),
             Event.playwrightStop]⟩) ∧
      (o.screenshotErr = none → pyIn "greenhouse.io" o.resolvedUrl = true →
        o.fillErr = none →
        (applyToJob job (some d) o).events.take 5 =
          [Event.browserLaunch, Event.goto job.link,
           Event.screenshot (screenshotPath job.title job.company),
           Event.formFill, Event.submitClick]) := by
  obtain ⟨g, ru, se, fe, ue⟩ := o
  dsimp only at hg ⊢
  subst hg
  constructor
  · intro e hse
    subst hse
    simp [applyToJob, applyLink, runBrowser, hlink, not_le.mpr hq]
  · intro hse hm hf
    subst hse hf
    cases ue <;>
      simp [applyToJob, applyLink, runBrowser, finishApply, hlink, hm, not_le.mpr hq]

/-- Witness for the amended C7 at a concrete input. -/
theorem C7_screenshot_first_and_fatal_witness :
    applyToJob jobGh (some doc3) oShotFail =
      ⟨ApplyResult.ret (Outcome.failed "screenshot timeout"), some doc3,
        [Event.browserLaunch, Event.goto jobGh.link,
         Event.screenshot (screenshotPath jobGh.title jobGh.company),
         Event.playwrightStop]⟩ :=
  (C7_screenshot_first_and_fatal jobGh doc3 oShotFail (by decide) (by decide) rfl).1
    "screenshot timeout" rfl

/-- Claim C8, confirmed: on every exit path of a single job execution the
browser session opened for the posting is closed (either by the explicit
`browser.close()` or by the Playwright stop that closes every browser the
stopped driver launched when the `with` block exits), and across a batch no
posting's session is left open for, or reused by, a later posting: the
session-accounting automaton never sees a second launch while a session is
open and always ends with no session open. -/
theorem C8_sessions_closed :
    (∀ (job : Job) (db : Option UserDoc) (o : Oracle),
        sessState (applyToJob job db o).events (some false) = some false) ∧
      ∀ (jobs : List Job) (db : Option UserDoc) (os : Nat → Oracle),
        sessState (runJobs jobs db os 0).2.2 (some false) = some false :=
  ⟨sess_applyToJob, fun jobs db os => sess_runJobs jobs db os 0⟩

/-- Claim C9, confirmed: when the user's document does not exist, the quota
gate is bypassed (the call can never exit), the stored document is never
written, and any posting that reaches the counter-update step returns
Failed with the unbound-local error for `counts` — even though on a
Greenhouse page the form was already submitted by then. -/
theorem C9_missing_user (job : Job) (o : Oracle) :
    (applyToJob job none o).res ≠ ApplyResult.exited ∧
      (applyToJob job none o).db = none ∧
      (invalidLink job.link = false → o.gotoErr = none → o.screenshotErr = none →
        (pyIn "greenhouse.io" o.resolvedUrl = true → o.fillErr = none) →
        (applyToJob job none o).res = ApplyResult.ret (Outcome.failed countsUnboundMsg)) := by
  obtain ⟨g, ru, se, fe, ue⟩ := o
  cases g <;> cases se <;> cases fe <;> cases ue <;>
    simp only [applyToJob, applyLink, runBrowser, finishApply] <;>
    (try split) <;> (try split) <;>
    simp_all

/-- Witness for C9 at a concrete input (valid link, missing document: the
outcome is the unbound-local Failure and no counters are written). -/
theorem C9_missing_user_witness :
    (applyToJob jobGen none oClean).res ≠ ApplyResult.exited ∧
      (applyToJob jobGen none oClean).db = none ∧
      (applyToJob jobGen none oClean).res =
        ApplyResult.ret (Outcome.failed countsUnboundMsg) := by
  obtain ⟨h1, h2, h3⟩ := C9_missing_user jobGen oClean
  exact ⟨h1, h2, h3 (by decide) rfl rfl (fun _ => rfl)⟩

/-- Claim C10, confirmed: for an existing user whose document carries the
five counter/plan fields (as every document created by this code does), a
new /submit request copies free_uses_left, application_count, plan_id,
subscription_status and created_at from the stored document — leaving them
unchanged — while the profile/preference fields are overwritten with the
form-derived values. -/
theorem C10_preserves_counters (old : UserDoc) (f : SubmitForm)
    (h1 : old.free_uses_left.isSome = true)
    (h2 : old.application_count.isSome = true)
    (h3 : old.plan_id.isSome = true)
    (h4 : old.subscription_status.isSome = true)
    (h5 : old.created_at.isSome = true) :
    ((submitSaveExisting old f).free_uses_left = old.free_uses_left ∧
        (submitSaveExisting old f).application_count = old.application_count ∧
        (submitSaveExisting old f).plan_id = old.plan_id ∧
        (submitSaveExisting old f).subscription_status = old.subscription_status ∧
        (submitSaveExisting old f).created_at = old.created_at) ∧
      ((submitSaveExisting old f).job_title = some f.job_title ∧
        (submitSaveExisting old f).location = some f.location ∧
        (submitSaveExisting old f).first_name = some f.first_name ∧
        (submitSaveExisting old f).last_name = some f.last_name ∧
        (submitSaveExisting old f).phone = some f.phone ∧
        (submitSaveExisting old f).email = some f.email ∧
        (submitSaveExisting old f).password_hash = some f.password_hash ∧
        (submitSaveExisting old f).salary = some f.salary ∧
        (submitSaveExisting old f).resume_path = some f.resume_path ∧
        (submitSaveExisting old f).profile_photo = some f.profile_photo ∧
        (submitSaveExisting old f).num_jobs = some f.num_jobs ∧
        (submitSaveExisting old f).updated_at = some f.now) := by
  obtain ⟨a, ha⟩ := Option.isSome_iff_exists.mp h1
  obtain ⟨b, hb⟩ := Option.isSome_iff_exists.mp h2
  obtain ⟨c, hc⟩ := Option.isSome_iff_exists.mp h3
  obtain ⟨u, hu⟩ := Option.isSome_iff_exists.mp h4
  obtain ⟨v, hv⟩ := Option.isSome_iff_exists.mp h5
  simp [submitSaveExisting, ha, hb, hc, hu, hv]

/-- Witness for C10 at a concrete input. -/
theorem C10_preserves_counters_witness :
    ((submitSaveExisting oldDoc formNew).free_uses_left = oldDoc.free_uses_left ∧
        (submitSaveExisting oldDoc formNew).application_count = oldDoc.application_count ∧
        (submitSaveExisting oldDoc formNew).plan_id = oldDoc.plan_id ∧
        (submitSaveExisting oldDoc formNew).subscription_status = oldDoc.subscription_status ∧
        (submitSaveExisting oldDoc formNew).created_at = oldDoc.created_at) ∧
      ((submitSaveExisting oldDoc formNew).job_title = some formNew.job_title ∧
        (submitSaveExisting oldDoc formNew).location = some formNew.location ∧
        (submitSaveExisting oldDoc formNew).first_name = some formNew.first_name ∧
        (submitSaveExisting oldDoc formNew).last_name = some formNew.last_name ∧
        (submitSaveExisting oldDoc formNew).phone = some formNew.phone ∧
        (submitSaveExisting oldDoc formNew).email = some formNew.email ∧
        (submitSaveExisting oldDoc formNew).password_hash = some formNew.password_hash ∧
        (submitSaveExisting oldDoc formNew).salary = some formNew.salary ∧
        (submitSaveExisting oldDoc formNew).resume_path = some formNew.resume_path ∧
        (submitSaveExisting oldDoc formNew).profile_photo = some formNew.profile_photo ∧
        (submitSaveExisting oldDoc formNew).num_jobs = some formNew.num_jobs ∧
        (submitSaveExisting oldDoc formNew).updated_at = some formNew.now) :=
  C10_preserves_counters oldDoc formNew rfl rfl rfl rfl rfl

end Jobblixor
